import Mathlib

/-! HCP Vault cluster resource.

Shallow embedding of `internal/provider/resource_vault_cluster.go`:
the three package-level timeout variables, the resource description built by
`resourceVaultCluster` (callbacks, timeouts, attribute schema) and the three
lifecycle callbacks `resourceVaultClusterCreate`, `resourceVaultClusterRead`
and `resourceVaultClusterDelete`.

Conventions of the embedding:
* `time.Duration` is an integer count of nanoseconds;
* a Go pointer or function field that may be nil is an `Option`;
* a struct field that the Go literal leaves out holds its zero value;
* `map[string]*schema.Schema` is an association list, looked up by key;
* a callback that receives `*schema.ResourceData` returns the record it leaves
  behind next to its diagnostics (explicit state passing).
-/

set_option linter.unusedVariables false

namespace Provider

/-! ## package time -/

/-- Go `time.Duration`: a signed number of nanoseconds. -/
abbrev Duration := Int

def Nanosecond : Duration := 1
def Microsecond : Duration := 1000 * Nanosecond
def Millisecond : Duration := 1000 * Microsecond
def Second : Duration := 1000 * Millisecond
def Minute : Duration := 60 * Second

/-! ## package diag -/

/-- Severity of a diagnostic (`diag.Error`, `diag.Warning`). -/
inductive Severity where
  | Error
  | Warning
  deriving DecidableEq, Repr

/-- One `diag.Diagnostic`. -/
structure Diagnostic where
  Severity : Severity
  Summary : String
  Detail : String
  deriving DecidableEq, Repr

/-- Go `diag.Diagnostics`, a slice of diagnostics; the nil slice is `[]`. -/
abbrev Diagnostics := List Diagnostic

/-- Go `Diagnostics.HasError`: some diagnostic has severity `Error`. -/
def Diagnostics.HasError (diags : Diagnostics) : Bool :=
  diags.any (fun d => decide (d.Severity = Severity.Error))

/-! ## package schema -/

/-- Go `schema.ValueType`. -/
inductive ValueType where
  | TypeInvalid
  | TypeBool
  | TypeInt
  | TypeFloat
  | TypeString
  | TypeList
  | TypeMap
  | TypeSet
  deriving DecidableEq, Repr

/-- An attribute value (the primitive cases of Go `interface{}` that the
schema and the record use). -/
inductive Value where
  | bool (b : Bool)
  | int (i : Int)
  | str (s : String)
  deriving DecidableEq, Repr

/-- The validation functions of this package that the schema refers to by
name. Their bodies live in another file of the package; the schema only
stores the reference. -/
inductive ValidateFunc where
  | validateSlugID
  | validateSemVer
  deriving DecidableEq, Repr

/-- Go `schema.Schema`, the fields this resource sets. A field left out of a
literal holds its zero value. -/
structure Schema where
  Typ : ValueType := ValueType.TypeInvalid
  Optional : Bool := false
  Required : Bool := false
  Default : Option Value := none
  Description : String := ""
  Computed : Bool := false
  ForceNew : Bool := false
  ValidateDiagFunc : Option ValidateFunc := none
  deriving DecidableEq, Repr

/-- Go `schema.ResourceTimeout`: each entry is a `*time.Duration`. -/
structure ResourceTimeout where
  Create : Option Duration := none
  Read : Option Duration := none
  Update : Option Duration := none
  Delete : Option Duration := none
  Default : Option Duration := none
  deriving DecidableEq, Repr

/-- Go `schema.ResourceData`: the identity of the record (`Id()`) and the
values of its attributes. -/
structure ResourceData where
  id : String
  attrs : List (String × Value)
  deriving DecidableEq, Repr

/-- Go `ResourceData.Get`: the stored value of an attribute, if any. -/
def ResourceData.Get (d : ResourceData) (key : String) : Option Value :=
  d.attrs.lookup key

/-- String view of `ResourceData.Get`: an unset attribute reads as the zero
value, the empty string. -/
def ResourceData.GetString (d : ResourceData) (key : String) : String :=
  match d.Get key with
  | some (Value.str s) => s
  | _ => ""

/-- A lifecycle callback `func(ctx, data, meta) diag.Diagnostics`; `data` is a
pointer in Go, so the record left behind is returned with the diagnostics. -/
abbrev ContextFunc (Ctx Meta : Type) :=
  Ctx → ResourceData → Meta → Diagnostics × ResourceData

/-- A legacy callback `func(data, meta) error`; a nil error is `none`. -/
abbrev UpdateFunc (Meta : Type) :=
  ResourceData → Meta → Option String × ResourceData

/-- Go `schema.Resource`: the fields the literal in `resourceVaultCluster`
sets, together with the update entry points `Update` and `UpdateContext`,
which it leaves out. -/
structure Resource (Ctx Meta : Type) where
  Description : String := ""
  CreateContext : Option (ContextFunc Ctx Meta) := none
  ReadContext : Option (ContextFunc Ctx Meta) := none
  UpdateContext : Option (ContextFunc Ctx Meta) := none
  DeleteContext : Option (ContextFunc Ctx Meta) := none
  Update : Option (UpdateFunc Meta) := none
  Timeouts : Option ResourceTimeout := none
  Schema : List (String × Schema) := []

/-! ## resource_vault_cluster.go -/

/-- The amount of time that can elapse before a cluster read operation should
timeout. -/
def defaultVaultClusterTimeout : Duration := Minute * 5

/-- The amount of time that can elapse before a cluster create operation
should timeout. -/
def createVaultClusterTimeout : Duration := Minute * 35

/-- The amount of time that can elapse before a cluster delete operation
should timeout. -/
def deleteVaultClusterTimeout : Duration := Minute * 25

/-- Go `resourceVaultClusterCreate`: returns nil and does not touch `data`. -/
def resourceVaultClusterCreate {Ctx Meta : Type}
    (ctx : Ctx) (data : ResourceData) (meta : Meta) : Diagnostics × ResourceData :=
  ([], data)

/-- Go `resourceVaultClusterRead`: returns nil and does not touch `data`. -/
def resourceVaultClusterRead {Ctx Meta : Type}
    (ctx : Ctx) (data : ResourceData) (meta : Meta) : Diagnostics × ResourceData :=
  ([], data)

/-- Go `resourceVaultClusterDelete`: returns nil and does not touch `data`. -/
def resourceVaultClusterDelete {Ctx Meta : Type}
    (ctx : Ctx) (data : ResourceData) (meta : Meta) : Diagnostics × ResourceData :=
  ([], data)

/-- The attribute map of the `schema.Resource` literal, in source order. -/
def vaultClusterSchema : List (String × Schema) :=
  [ -- Required inputs
    ("cluster_id",
      { Description := "The ID of the HCP Vault cluster."
        Typ := ValueType.TypeString
        Required := true
        ForceNew := true
        ValidateDiagFunc := some ValidateFunc.validateSlugID }),
    ("hvn_id",
      { Description := "The ID of the HVN this HCP Vault cluster is associated to."
        Typ := ValueType.TypeString
        Required := true
        ForceNew := true
        ValidateDiagFunc := some ValidateFunc.validateSlugID }),
    -- optional fields
    ("public_endpoint",
      { Description := "Denotes that the cluster has a public endpoint for the Vault UI. Defaults to false."
        Typ := ValueType.TypeBool
        Default := some (Value.bool false)
        Optional := true
        ForceNew := true }),
    ("min_vault_version",
      { Description := "The minimum Vault version to use when creating the cluster. If not specified, it is defaulted to the version that is currently recommended by HCP."
        Typ := ValueType.TypeString
        Optional := true
        ValidateDiagFunc := some ValidateFunc.validateSemVer
        ForceNew := true }),
    -- computed outputs
    ("tier",
      { Description := "The tier that the HCP Vault cluster will be provisioned as.  Only \x27development\x27 is available at this time."
        Typ := ValueType.TypeString
        Computed := true }),
    ("organization_id",
      { Description := "The ID of the organization this HCP Vault cluster is located in."
        Typ := ValueType.TypeString
        Computed := true }),
    ("project_id",
      { Description := "The ID of the project this HCP Vault cluster is located in."
        Typ := ValueType.TypeString
        Optional := true
        ForceNew := true
        Computed := true }),
    ("cloud_provider",
      { Description := "The provider where the HCP Vault cluster is located."
        Typ := ValueType.TypeString
        Computed := true }),
    ("region",
      { Description := "The region where the HCP Vault cluster is located."
        Typ := ValueType.TypeString
        Computed := true }),
    ("namespace",
      { Description := "The name of the customer namespace this HCP Vault cluster is located in."
        Typ := ValueType.TypeString
        Computed := true }),
    ("vault_version",
      { Description := "The Vault version of the cluster."
        Typ := ValueType.TypeString
        Computed := true }),
    ("vault_public_endpoint_url",
      { Description := "The public URL for the Vault UI. This will be empty if \x60public_endpoint\x60 is \x60false\x60."
        Typ := ValueType.TypeString
        Computed := true }),
    ("vault_private_endpoint_url",
      { Description := "The private URL for the Vault UI."
        Typ := ValueType.TypeString
        Computed := true }),
    ("created_at",
      { Description := "The time that the Vault cluster was created."
        Typ := ValueType.TypeString
        Computed := true }) ]

/-- Go `resourceVaultCluster`: the resource description. -/
def resourceVaultCluster (Ctx Meta : Type) : Resource Ctx Meta :=
  { Description := "The Vault cluster resource allows you to manage an HCP Vault cluster."
    CreateContext := some resourceVaultClusterCreate
    ReadContext := some resourceVaultClusterRead
    DeleteContext := some resourceVaultClusterDelete
    Timeouts := some
      { Create := some createVaultClusterTimeout
        Delete := some deleteVaultClusterTimeout
        Default := some defaultVaultClusterTimeout }
    Schema := vaultClusterSchema }

/-! ## Views of the schema used by the properties -/

/-- The schema of one attribute of a resource (Go map index). -/
def Resource.attr {Ctx Meta : Type} (r : Resource Ctx Meta) (name : String) : Option Provider.Schema :=
  r.Schema.lookup name

/-- The attribute names of a resource whose schema satisfies `p`. -/
def Resource.attrsWhere {Ctx Meta : Type} (r : Resource Ctx Meta) (p : Provider.Schema → Bool) :
    List String :=
  (r.Schema.filter (fun kv => p kv.2)).map (fun kv => kv.1)

/-- The attribute names of a resource (the keys of its schema map). -/
def Resource.attrNames {Ctx Meta : Type} (r : Resource Ctx Meta) : List String :=
  r.Schema.map (fun kv => kv.1)

/-- The validator, if any, that the schema attaches to an attribute. -/
def Resource.validatorOf {Ctx Meta : Type} (r : Resource Ctx Meta) (name : String) :
    Option ValidateFunc :=
  (r.attr name).bind (fun s => s.ValidateDiagFunc)

/-- The attributes listed under the comment "computed outputs" in the schema
literal. -/
def computedOutputs : List String :=
  ["tier", "organization_id", "project_id", "cloud_provider", "region", "namespace",
   "vault_version", "vault_public_endpoint_url", "vault_private_endpoint_url", "created_at"]

/-- A record as the caller hands it to Create: the user-supplied attributes
`cluster_id`, `hvn_id` and `public_endpoint`, no identity yet and no computed
attribute set. -/
def prodVaultInput : ResourceData :=
  { id := ""
    attrs := [("cluster_id", Value.str "prod-vault"), ("hvn_id", Value.str "hvn-1"),
              ("public_endpoint", Value.bool false)] }

/-- A record held in state for a cluster created earlier: it has an identity
and its computed attributes carry the values seen at that time. -/
def prodVaultStored : ResourceData :=
  { id := "prod-vault"
    attrs := [("cluster_id", Value.str "prod-vault"), ("hvn_id", Value.str "hvn-1"),
              ("public_endpoint", Value.bool false), ("tier", Value.str "development"),
              ("region", Value.str "us-west-2")] }

/-- A provider meta value standing for a control plane that holds no cluster
at all: the list of the cluster identities that exist remotely is empty. -/
def emptyRemote : List String := []

end Provider

namespace Provider

/-! ## Properties -/

/-- A key that differs from every key of an association list is not found. -/
theorem lookup_eq_none_of_forall_ne {β : Type} (l : List (String × β)) (k : String)
    (h : ∀ kv ∈ l, kv.1 ≠ k) : l.lookup k = none := by
  induction l with
  | nil => rfl
  | cons hd tl ih =>
    have hne : (k == hd.1) = false := by
      have := h hd (List.mem_cons_self _ _)
      simpa using fun e => this e.symm
    obtain ⟨a, b⟩ := hd
    simp only [List.lookup, hne]
    exact ih (fun kv hkv => h kv (List.mem_cons_of_mem _ hkv))

/-- C1: the timeout configuration built by `resourceVaultCluster` holds
Create = 35 minutes, Delete = 25 minutes and Default = 5 minutes (Read and
Update carry no entry of their own); as durations these are 2100 s, 1500 s and
300 s, and Default < Delete < Create. -/
theorem resourceVaultCluster_timeouts (Ctx Meta : Type) :
    (resourceVaultCluster Ctx Meta).Timeouts =
        some { Create := some (35 * Minute), Read := none, Update := none,
               Delete := some (25 * Minute), Default := some (5 * Minute) }
      ∧ createVaultClusterTimeout = 2100 * Second
      ∧ deleteVaultClusterTimeout = 1500 * Second
      ∧ defaultVaultClusterTimeout = 300 * Second
      ∧ defaultVaultClusterTimeout < deleteVaultClusterTimeout
      ∧ deleteVaultClusterTimeout < createVaultClusterTimeout := by
  refine ⟨?_, ?_, ?_, ?_, ?_, ?_⟩
  · simp [resourceVaultCluster, createVaultClusterTimeout, deleteVaultClusterTimeout,
      defaultVaultClusterTimeout, mul_comm]
  all_goals decide

/-- C2: each of the identity attributes cluster_id, hvn_id, public_endpoint,
min_vault_version and project_id is marked ForceNew in the schema returned by
`resourceVaultCluster` (and no other attribute is), and the resource sets the
Create, Read and Delete callbacks but no update entry point. -/
theorem resourceVaultCluster_identity_forceNew (Ctx Meta : Type) :
    Option.map Schema.ForceNew ((resourceVaultCluster Ctx Meta).attr "cluster_id") = some true
      ∧ Option.map Schema.ForceNew ((resourceVaultCluster Ctx Meta).attr "hvn_id") = some true
      ∧ Option.map Schema.ForceNew ((resourceVaultCluster Ctx Meta).attr "public_endpoint")
          = some true
      ∧ Option.map Schema.ForceNew ((resourceVaultCluster Ctx Meta).attr "min_vault_version")
          = some true
      ∧ Option.map Schema.ForceNew ((resourceVaultCluster Ctx Meta).attr "project_id")
          = some true
      ∧ (resourceVaultCluster Ctx Meta).attrsWhere (fun s => s.ForceNew)
          = ["cluster_id", "hvn_id", "public_endpoint", "min_vault_version", "project_id"]
      ∧ (resourceVaultCluster Ctx Meta).UpdateContext.isNone = true
      ∧ (resourceVaultCluster Ctx Meta).Update.isNone = true
      ∧ (resourceVaultCluster Ctx Meta).CreateContext = some resourceVaultClusterCreate
      ∧ (resourceVaultCluster Ctx Meta).ReadContext = some resourceVaultClusterRead
      ∧ (resourceVaultCluster Ctx Meta).DeleteContext = some resourceVaultClusterDelete := by
  refine ⟨?_, ?_, ?_, ?_, ?_, ?_, ?_, ?_, ?_, ?_, ?_⟩ <;> rfl

/-- C3 (counterexample): project_id, one of the ten computed outputs, is
marked Optional in the schema, so it is not "neither Required nor Optional". -/
theorem project_id_is_optional :
    "project_id" ∈ computedOutputs
      ∧ Option.map (fun s => (s.Computed, s.Required, s.Optional))
          ((resourceVaultCluster Unit Unit).attr "project_id") = some (true, false, true)
      ∧ ¬ (∀ name ∈ computedOutputs, ∃ s, (resourceVaultCluster Unit Unit).attr name = some s
            ∧ s.Computed = true ∧ s.Required = false ∧ s.Optional = false) := by
  refine ⟨by decide, rfl, ?_⟩
  intro h
  obtain ⟨s, hs, -, -, hopt⟩ := h "project_id" (by decide)
  have hs2 : (resourceVaultCluster Unit Unit).attr "project_id" = some
      { Description := "The ID of the project this HCP Vault cluster is located in."
        Typ := ValueType.TypeString
        Optional := true
        ForceNew := true
        Computed := true } := rfl
  rw [hs2] at hs
  cases hs
  exact absurd hopt (by decide)

/-- C3 (amended): the attributes marked Computed are exactly the ten computed
outputs and none of them is Required; nine of them (all but project_id) are
not Optional either, while project_id is Optional as well as Computed, so the
user may supply it. -/
theorem resourceVaultCluster_computed_outputs (Ctx Meta : Type) :
    (resourceVaultCluster Ctx Meta).attrsWhere (fun s => s.Computed) = computedOutputs
      ∧ (resourceVaultCluster Ctx Meta).attrsWhere (fun s => s.Computed && !s.Required)
          = computedOutputs
      ∧ (resourceVaultCluster Ctx Meta).attrsWhere
            (fun s => s.Computed && !s.Required && !s.Optional)
          = ["tier", "organization_id", "cloud_provider", "region", "namespace",
             "vault_version", "vault_public_endpoint_url", "vault_private_endpoint_url",
             "created_at"]
      ∧ (resourceVaultCluster Ctx Meta).attrsWhere
            (fun s => s.Computed && !s.Required && s.Optional)
          = ["project_id"]
      ∧ (resourceVaultCluster Ctx Meta).attrNames.Nodup := by
  refine ⟨rfl, rfl, rfl, rfl, ?_⟩
  simp [Resource.attrNames, resourceVaultCluster, vaultClusterSchema]

/-- C5: public_endpoint is a boolean attribute, Optional, not Required and not
Computed (the user sets it), its Default is false, and it is the only
attribute of the schema that declares a Default. -/
theorem resourceVaultCluster_public_endpoint (Ctx Meta : Type) :
    Option.map (fun s => (s.Typ, s.Optional, s.Required, s.Computed, s.Default))
        ((resourceVaultCluster Ctx Meta).attr "public_endpoint")
        = some (ValueType.TypeBool, true, false, false, some (Value.bool false))
      ∧ (resourceVaultCluster Ctx Meta).attrsWhere (fun s => s.Default.isSome)
          = ["public_endpoint"] := by
  exact ⟨rfl, rfl⟩

/-- C4: in the schema returned by `resourceVaultCluster` the slug validator is
attached to exactly the two required attributes cluster_id and hvn_id, the
semantic-version validator to exactly the optional attribute
min_vault_version, and every other attribute name carries no validator. -/
theorem resourceVaultCluster_validators (Ctx Meta : Type) :
    (∀ name : String,
        ((resourceVaultCluster Ctx Meta).validatorOf name = some ValidateFunc.validateSlugID
            ↔ name = "cluster_id" ∨ name = "hvn_id")
        ∧ ((resourceVaultCluster Ctx Meta).validatorOf name = some ValidateFunc.validateSemVer
            ↔ name = "min_vault_version")
        ∧ ((resourceVaultCluster Ctx Meta).validatorOf name = none
            ↔ ¬ (name = "cluster_id" ∨ name = "hvn_id" ∨ name = "min_vault_version")))
      ∧ (resourceVaultCluster Ctx Meta).attrsWhere
            (fun s => decide (s.ValidateDiagFunc = some ValidateFunc.validateSlugID))
          = ["cluster_id", "hvn_id"]
      ∧ (resourceVaultCluster Ctx Meta).attrsWhere
            (fun s => decide (s.ValidateDiagFunc = some ValidateFunc.validateSemVer))
          = ["min_vault_version"]
      ∧ (resourceVaultCluster Ctx Meta).attrsWhere (fun s => s.ValidateDiagFunc.isSome)
          = ["cluster_id", "hvn_id", "min_vault_version"]
      ∧ Option.map (fun s => (s.Required, s.Optional))
          ((resourceVaultCluster Ctx Meta).attr "cluster_id") = some (true, false)
      ∧ Option.map (fun s => (s.Required, s.Optional))
          ((resourceVaultCluster Ctx Meta).attr "hvn_id") = some (true, false)
      ∧ Option.map (fun s => (s.Required, s.Optional))
          ((resourceVaultCluster Ctx Meta).attr "min_vault_version") = some (false, true) := by
  refine ⟨?_, rfl, rfl, rfl, rfl, rfl, rfl⟩
  intro name
  by_cases h0 : name = "cluster_id"
  · subst h0
    refine ⟨?_, ?_, ?_⟩ <;>
      simp [Resource.validatorOf, Resource.attr, resourceVaultCluster, vaultClusterSchema,
        List.lookup]
  by_cases h1 : name = "hvn_id"
  · subst h1
    refine ⟨?_, ?_, ?_⟩ <;>
      simp [Resource.validatorOf, Resource.attr, resourceVaultCluster, vaultClusterSchema,
        List.lookup]
  by_cases h2 : name = "public_endpoint"
  · subst h2
    refine ⟨?_, ?_, ?_⟩ <;>
      simp [Resource.validatorOf, Resource.attr, resourceVaultCluster, vaultClusterSchema,
        List.lookup]
  by_cases h3 : name = "min_vault_version"
  · subst h3
    refine ⟨?_, ?_, ?_⟩ <;>
      simp [Resource.validatorOf, Resource.attr, resourceVaultCluster, vaultClusterSchema,
        List.lookup]
  by_cases h4 : name = "tier"
  · subst h4
    refine ⟨?_, ?_, ?_⟩ <;>
      simp [Resource.validatorOf, Resource.attr, resourceVaultCluster, vaultClusterSchema,
        List.lookup]
  by_cases h5 : name = "organization_id"
  · subst h5
    refine ⟨?_, ?_, ?_⟩ <;>
      simp [Resource.validatorOf, Resource.attr, resourceVaultCluster, vaultClusterSchema,
        List.lookup]
  by_cases h6 : name = "project_id"
  · subst h6
    refine ⟨?_, ?_, ?_⟩ <;>
      simp [Resource.validatorOf, Resource.attr, resourceVaultCluster, vaultClusterSchema,
        List.lookup]
  by_cases h7 : name = "cloud_provider"
  · subst h7
    refine ⟨?_, ?_, ?_⟩ <;>
      simp [Resource.validatorOf, Resource.attr, resourceVaultCluster, vaultClusterSchema,
        List.lookup]
  by_cases h8 : name = "region"
  · subst h8
    refine ⟨?_, ?_, ?_⟩ <;>
      simp [Resource.validatorOf, Resource.attr, resourceVaultCluster, vaultClusterSchema,
        List.lookup]
  by_cases h9 : name = "namespace"
  · subst h9
    refine ⟨?_, ?_, ?_⟩ <;>
      simp [Resource.validatorOf, Resource.attr, resourceVaultCluster, vaultClusterSchema,
        List.lookup]
  by_cases h10 : name = "vault_version"
  · subst h10
    refine ⟨?_, ?_, ?_⟩ <;>
      simp [Resource.validatorOf, Resource.attr, resourceVaultCluster, vaultClusterSchema,
        List.lookup]
  by_cases h11 : name = "vault_public_endpoint_url"
  · subst h11
    refine ⟨?_, ?_, ?_⟩ <;>
      simp [Resource.validatorOf, Resource.attr, resourceVaultCluster, vaultClusterSchema,
        List.lookup]
  by_cases h12 : name = "vault_private_endpoint_url"
  · subst h12
    refine ⟨?_, ?_, ?_⟩ <;>
      simp [Resource.validatorOf, Resource.attr, resourceVaultCluster, vaultClusterSchema,
        List.lookup]
  by_cases h13 : name = "created_at"
  · subst h13
    refine ⟨?_, ?_, ?_⟩ <;>
      simp [Resource.validatorOf, Resource.attr, resourceVaultCluster, vaultClusterSchema,
        List.lookup]
  have hnone : (resourceVaultCluster Ctx Meta).validatorOf name = none := by
    have hl : vaultClusterSchema.lookup name = none := by
      apply lookup_eq_none_of_forall_ne
      intro kv hkv
      simp only [vaultClusterSchema, List.mem_cons, List.mem_singleton, List.not_mem_nil,
        or_false] at hkv
      rcases hkv with rfl | rfl | rfl | rfl | rfl | rfl | rfl | rfl | rfl | rfl | rfl | rfl | rfl | rfl <;> intro hk <;> simp_all
    simp [Resource.validatorOf, Resource.attr, resourceVaultCluster, hl]
  simp [hnone, h0, h1, h3]

/-- C6 (counterexample): on the record with cluster_id "prod-vault", hvn_id
"hvn-1" and public_endpoint false, `resourceVaultClusterCreate` returns no
diagnostics, yet tier, region, vault_version and vault_private_endpoint_url
of the record it leaves behind are all empty. -/
theorem create_leaves_computed_fields_empty :
    (resourceVaultClusterCreate () prodVaultInput ()).1 = []
      ∧ Diagnostics.HasError (resourceVaultClusterCreate () prodVaultInput ()).1 = false
      ∧ (resourceVaultClusterCreate () prodVaultInput ()).2.GetString "cluster_id" = "prod-vault"
      ∧ (resourceVaultClusterCreate () prodVaultInput ()).2.GetString "hvn_id" = "hvn-1"
      ∧ (resourceVaultClusterCreate () prodVaultInput ()).2.Get "public_endpoint"
          = some (Value.bool false)
      ∧ (resourceVaultClusterCreate () prodVaultInput ()).2.GetString "tier" = ""
      ∧ (resourceVaultClusterCreate () prodVaultInput ()).2.GetString "region" = ""
      ∧ (resourceVaultClusterCreate () prodVaultInput ()).2.GetString "vault_version" = ""
      ∧ (resourceVaultClusterCreate () prodVaultInput ()).2.GetString
          "vault_private_endpoint_url" = "" := by
  refine ⟨?_, ?_, ?_, ?_, ?_, ?_, ?_, ?_, ?_⟩ <;> rfl

/-- C6 (amended): for every record, `resourceVaultClusterCreate` returns
success and every attribute of the record it leaves behind reads exactly as it
did on entry, so tier, region, vault_version, vault_private_endpoint_url and
vault_public_endpoint_url are populated after the call only when they already
were; for the record with cluster_id "prod-vault", hvn_id "hvn-1" and
public_endpoint false, vault_public_endpoint_url is empty after the call. -/
theorem create_keeps_attributes {Ctx Meta : Type} (ctx : Ctx) (data : ResourceData)
    (meta : Meta) :
    Diagnostics.HasError (resourceVaultClusterCreate ctx data meta).1 = false
      ∧ (∀ key : String,
          (resourceVaultClusterCreate ctx data meta).2.Get key = data.Get key
          ∧ (resourceVaultClusterCreate ctx data meta).2.GetString key = data.GetString key)
      ∧ (resourceVaultClusterCreate ctx prodVaultInput meta).2.GetString
          "vault_public_endpoint_url" = "" := by
  exact ⟨rfl, fun _ => ⟨rfl, rfl⟩, rfl⟩

/-- C7 (counterexample): with a control plane that holds no cluster, so that
the remote resource of the stored record "prod-vault" does not exist,
`resourceVaultClusterRead` returns no diagnostics but hands the stored record
back unchanged: its identity is still "prod-vault", not cleared, and its
computed attributes still carry the stale values. -/
theorem read_keeps_stale_record :
    "prod-vault" ∉ emptyRemote
      ∧ (resourceVaultClusterRead () prodVaultStored emptyRemote).1 = []
      ∧ (resourceVaultClusterRead () prodVaultStored emptyRemote).2.id = "prod-vault"
      ∧ (resourceVaultClusterRead () prodVaultStored emptyRemote).2.id ≠ ""
      ∧ (resourceVaultClusterRead () prodVaultStored emptyRemote).2.GetString "tier"
          = "development"
      ∧ (resourceVaultClusterRead () prodVaultStored emptyRemote).2 = prodVaultStored := by
  refine ⟨by simp [emptyRemote], rfl, rfl, by decide, rfl, rfl⟩

/-- C7 (amended): for every record, whether or not its remote resource exists,
`resourceVaultClusterRead` returns no error and hands the record back
unchanged, identity included; it never reports the record as absent. -/
theorem read_returns_record_unchanged {Ctx Meta : Type} (ctx : Ctx) (data : ResourceData)
    (meta : Meta) :
    (resourceVaultClusterRead ctx data meta).1 = []
      ∧ Diagnostics.HasError (resourceVaultClusterRead ctx data meta).1 = false
      ∧ (resourceVaultClusterRead ctx data meta).2.id = data.id
      ∧ (resourceVaultClusterRead ctx data meta).2 = data := by
  exact ⟨rfl, rfl, rfl, rfl⟩

/-- C8: Delete is idempotent: for every record, calling
`resourceVaultClusterDelete` and then calling it again on the record the first
call left behind returns success (no error diagnostics) both times. -/
theorem delete_twice_succeeds {Ctx Meta : Type} (ctx₁ ctx₂ : Ctx) (data : ResourceData)
    (meta₁ meta₂ : Meta) :
    Diagnostics.HasError (resourceVaultClusterDelete ctx₁ data meta₁).1 = false
      ∧ Diagnostics.HasError
          (resourceVaultClusterDelete ctx₂ (resourceVaultClusterDelete ctx₁ data meta₁).2
            meta₂).1 = false
      ∧ (resourceVaultClusterDelete ctx₂ (resourceVaultClusterDelete ctx₁ data meta₁).2
            meta₂).2.id = data.id := by
  exact ⟨rfl, rfl, rfl⟩

/-- C9: Read reflects Create: for every record, running
`resourceVaultClusterCreate` and then `resourceVaultClusterRead` on the
resulting record succeeds and yields a record equal to the one Create
returned; in particular every computed output reads the same in both. -/
theorem read_reflects_create {Ctx Meta : Type} (ctx₁ ctx₂ : Ctx) (data : ResourceData)
    (meta₁ meta₂ : Meta) :
    Diagnostics.HasError (resourceVaultClusterCreate ctx₁ data meta₁).1 = false
      ∧ Diagnostics.HasError
          (resourceVaultClusterRead ctx₂ (resourceVaultClusterCreate ctx₁ data meta₁).2
            meta₂).1 = false
      ∧ (resourceVaultClusterRead ctx₂ (resourceVaultClusterCreate ctx₁ data meta₁).2 meta₂).2
          = (resourceVaultClusterCreate ctx₁ data meta₁).2
      ∧ (∀ key : String,
          (resourceVaultClusterRead ctx₂ (resourceVaultClusterCreate ctx₁ data meta₁).2
              meta₂).2.Get key
            = (resourceVaultClusterCreate ctx₁ data meta₁).2.Get key) := by
  exact ⟨rfl, rfl, rfl, fun _ => rfl⟩

/-- C10: each of `resourceVaultClusterCreate`, `resourceVaultClusterRead` and
`resourceVaultClusterDelete` is a pure no-op: for every context, record and
provider meta value it returns the nil diagnostics list and leaves the record,
identity and attributes included, unchanged; the diagnostics it returns are the
same for any two choices of arguments. -/
theorem lifecycle_callbacks_are_noops {Ctx Meta Ctx₂ Meta₂ : Type} (ctx : Ctx)
    (data : ResourceData) (meta : Meta) (ctx₂ : Ctx₂) (data₂ : ResourceData) (meta₂ : Meta₂) :
    resourceVaultClusterCreate ctx data meta = ([], data)
      ∧ resourceVaultClusterRead ctx data meta = ([], data)
      ∧ resourceVaultClusterDelete ctx data meta = ([], data)
      ∧ (resourceVaultClusterCreate ctx data meta).1
          = (resourceVaultClusterCreate ctx₂ data₂ meta₂).1
      ∧ (resourceVaultClusterRead ctx data meta).1
          = (resourceVaultClusterRead ctx₂ data₂ meta₂).1
      ∧ (resourceVaultClusterDelete ctx data meta).1
          = (resourceVaultClusterDelete ctx₂ data₂ meta₂).1 := by
  exact ⟨rfl, rfl, rfl, rfl, rfl, rfl⟩

end Provider
